import Mathlib

/-!
Shallow embedding of the dvc reproduction engine (dvc/command/repro.py):
the ReproChange node algorithm (construction, dependency resolution,
recursive reproduction, staleness decision, regeneration) and the CmdRepro
driver (locking, target resolution, per-target loop, commit decision).
External collaborators (git, state storage, path factory, subprocess
execution, the file system) are modelled as oracles in an Env record, and
observable side effects are recorded in an event trace.
-/

set_option maxRecDepth 4096

/-- An artifact identity: the relative path of the data file and of its
state file, as carried by a DataItem in the source. -/
structure DataItem where
  data_relative : String
  state_relative : String
deriving DecidableEq

/-- The persisted state record of one artifact, as loaded by StateFile.load:
the normalized producing argv, the declared input dependencies, the declared
code dependencies, the reproducibility flag, and the state-file path the
loaded object reports as its own file. -/
structure StateRecord where
  norm_argv : List String
  input_files : List String
  code_dependencies : List String
  is_reproducible : Bool
  file : String
deriving DecidableEq

/-- Outcome of path_factory.data_item on a declared input path: a resolved
DataItem, the NotInDataDirError case, or any other resolution exception. -/
inductive ResolveResult where
  | ok (d : DataItem)
  | notInDataDir
  | otherError (msg : String)
deriving DecidableEq

/-- Errors that can escape the engine: ReproError (the reproduction
taxonomy error raised and caught by the driver), an operating-system error
from os.remove, and exhaustion of the recursion fuel (modelling unbounded
recursion on cyclic dependency declarations). -/
inductive RunErr where
  | repro (msg : String)
  | osError (path : String)
  | noFuel
deriving DecidableEq

/-- Observable side effects of a run, in order of occurrence. -/
inductive Event where
  | acquireLock (timeoutUnits : Nat) (ok : Bool)
  | releaseLock
  | logBusy
  | resolveTargets (targets : List String)
  | errorExternalFiles (dataDir : String) (files : List String)
  | setCode (code : List String)
  | checkChanged (path : String) (code : List String)
  | removeFile (path : String)
  | execute (argv : List String)
  | logReproduced (path : String)
  | logUpToDate (path : String)
  | logReproError (path : String) (msg : String)
  | errorsOccurred
  | warnUncommitted
  | commit (msg : String)
deriving DecidableEq

/-- The external collaborators consumed by the engine, as deterministic
oracles over one repository snapshot. -/
structure Env where
  lock_acquire : Bool
  is_ready_to_go : Bool
  data_dir : String
  to_data_items : List String → List DataItem × List String
  load : String → StateRecord
  data_item : String → ResolveResult
  were_files_changed : String → List String → Bool
  file_exists : String → Bool
  run_command : List String → Bool

/-- Message of the ReproError raised when norm_argv is absent or empty. -/
def noArgvMsg (stateLoc : String) : String :=
  "Error: parameter argv is nor defined in state file " ++ stateLoc

/-- Message of the ReproError raised when norm_argv has fewer than 2 tokens. -/
def shortArgvMsg (stateLoc : String) : String :=
  "Error: reproducible cmd in state file " ++ stateLoc ++ " is too short"

/-- Message of the ReproError raised when a declared input is outside the
data directory. -/
def depNotDataItemMsg (f : String) : String :=
  "The dependency file " ++ f ++ " is not a data item"

/-- Message of the ReproError raised when a declared input fails to resolve
for any other reason. -/
def depResolveFailedMsg (f m : String) : String :=
  "Unable to reproduced the dependency file " ++ f ++ ": " ++ m

/-- The constructed reproduction node: the artifact, its loaded state
record, and the validated producing argv. -/
structure ReproChange where
  item : DataItem
  state : StateRecord
  repro_argv : List String
deriving DecidableEq

/-- ReproChange.__init__: load the state record, overwrite the shared code
dependency list of the command object (the setCode event), then validate
norm_argv: absent or empty raises ReproError naming the state file of the
data item; fewer than 2 tokens raises ReproError naming the state file
reported by the loaded record. -/
def ReproChange_mk (env : Env) (item : DataItem) : List Event × Except RunErr ReproChange :=
  let st := env.load item.state_relative
  let ev := [Event.setCode st.code_dependencies]
  if st.norm_argv = [] then
    (ev, Except.error (RunErr.repro (noArgvMsg item.state_relative)))
  else if st.norm_argv.length < 2 then
    (ev, Except.error (RunErr.repro (shortArgvMsg st.file)))
  else
    (ev, Except.ok ⟨item, st, st.norm_argv⟩)

/-- ReproChange.get_dependencies: resolve each declared input path, in
declared order, into a DataItem; NotInDataDirError and any other exception
are converted into a ReproError that aborts the resolution. -/
def get_dependencies (env : Env) : List String → Except RunErr (List DataItem)
  | [] => Except.ok []
  | f :: fs =>
    match env.data_item f with
    | ResolveResult.ok d =>
      match get_dependencies env fs with
      | Except.ok ds => Except.ok (d :: ds)
      | Except.error e => Except.error e
    | ResolveResult.notInDataDir => Except.error (RunErr.repro (depNotDataItemMsg f))
    | ResolveResult.otherError m => Except.error (RunErr.repro (depResolveFailedMsg f m))

/-- ReproChange.reproduce_data_file: unconditionally os.remove the output
file (an OSError if it does not exist), then run the recorded argv and
return the executor result. -/
def reproduce_data_file (env : Env) (rc : ReproChange) : List Event × Except RunErr Bool :=
  if env.file_exists rc.item.data_relative then
    ([Event.removeFile rc.item.data_relative, Event.execute rc.repro_argv],
     Except.ok (env.run_command rc.repro_argv))
  else
    ([], Except.error (RunErr.osError rc.item.data_relative))

/-- The dependency loop inside ReproChange.reproduce: construct and
reproduce each child in declared order, recording whether any child was
regenerated; an exception from a child propagates, otherwise every child is
processed. -/
def reproChildren (rep : DataItem → List Event × Except RunErr Bool) :
    List DataItem → List Event × Except RunErr Bool
  | [] => ([], Except.ok false)
  | d :: ds =>
    let hd := rep d
    match hd.2 with
    | Except.error e => (hd.1, Except.error e)
    | Except.ok b =>
      let tl := reproChildren rep ds
      match tl.2 with
      | Except.error e => (hd.1 ++ tl.1, Except.error e)
      | Except.ok b2 => (hd.1 ++ tl.1, Except.ok (b || b2))

/-- ReproChange construction followed by ReproChange.reproduce, with fuel
bounding the recursion depth: return false immediately when the record is
not reproducible; otherwise resolve the dependencies, reproduce each child,
query were_files_changed on the artifact and its code dependencies, and
regenerate unless force, the source check and the child check are all
false. -/
def reproduce (env : Env) (force : Bool) : Nat → DataItem → List Event × Except RunErr Bool
  | 0, _ => ([], Except.error RunErr.noFuel)
  | f + 1, item =>
    let mk := ReproChange_mk env item
    match mk.2 with
    | Except.error e => (mk.1, Except.error e)
    | Except.ok rc =>
      if rc.state.is_reproducible = false then
        (mk.1, Except.ok false)
      else
        match get_dependencies env rc.state.input_files with
        | Except.error e => (mk.1, Except.error e)
        | Except.ok deps =>
          let ch := reproChildren (fun d => reproduce env force f d) deps
          match ch.2 with
          | Except.error e => (mk.1 ++ ch.1, Except.error e)
          | Except.ok inputsChanged =>
            let src := env.were_files_changed item.data_relative rc.state.code_dependencies
            let tr1 := mk.1 ++ ch.1 ++
              [Event.checkChanged item.data_relative rc.state.code_dependencies]
            if !force && !src && !inputsChanged then
              (tr1, Except.ok false)
            else
              let rdf := reproduce_data_file env rc
              (tr1 ++ rdf.1, rdf.2)

/-- Result of the per-target loop of CmdRepro.repro_data_items: either the
loop finished with its changed and error flags, or a non-ReproError
exception escaped it. -/
inductive LoopRes where
  | finished (changed : Bool) (error : Bool)
  | crashed (e : RunErr)
deriving DecidableEq

/-- The per-target loop of CmdRepro.repro_data_items: for each target,
construct a node and reproduce it with force false; a true result sets the
changed flag, a ReproError is logged and breaks the loop with the error
flag set, and any other exception escapes. -/
def reproItemsLoop (env : Env) (fuel : Nat) : Bool → List DataItem → List Event × LoopRes
  | changed, [] => ([], LoopRes.finished changed false)
  | changed, d :: ds =>
    let r := reproduce env false fuel d
    match r.2 with
    | Except.ok true =>
      let rest := reproItemsLoop env fuel true ds
      (r.1 ++ [Event.logReproduced d.data_relative] ++ rest.1, rest.2)
    | Except.ok false =>
      let rest := reproItemsLoop env fuel changed ds
      (r.1 ++ [Event.logUpToDate d.data_relative] ++ rest.1, rest.2)
    | Except.error (RunErr.repro m) =>
      (r.1 ++ [Event.logReproError d.data_relative m], LoopRes.finished changed true)
    | Except.error e => (r.1, LoopRes.crashed e)

/-- CmdRepro.repro_data_items: run the per-target loop; when it errored and
git actions are not skipped, log that errors occurred and warn about
uncommitted changes; return changed and not error. -/
def repro_data_items (env : Env) (skipGit : Bool) (fuel : Nat) (items : List DataItem) :
    List Event × Except RunErr Bool :=
  let lr := reproItemsLoop env fuel false items
  match lr.2 with
  | LoopRes.crashed e => (lr.1, Except.error e)
  | LoopRes.finished changed error =>
    if error && !skipGit then
      (lr.1 ++ [Event.errorsOccurred, Event.warnUncommitted], Except.ok (changed && !error))
    else
      (lr.1, Except.ok (changed && !error))

/-- Modelled from the spec: CmdBase.commit_if_needed is not part of the
source under verification; per the spec, when some target changed and no
error occurred the driver triggers a commit of the resulting changes with
the given message and returns success (exit code 0). -/
def commit_if_needed (msg : String) : List Event × Nat :=
  ([Event.commit msg], 0)

/-- The body of CmdRepro.run inside the try block: the readiness check,
target resolution with the external-files check, the per-target loop, and
the commit decision. -/
def run_body (env : Env) (targets : List String) (skipGit : Bool) (fuel : Nat) :
    List Event × Except RunErr Nat :=
  if !skipGit && !env.is_ready_to_go then ([], Except.ok 1)
  else
    let res := env.to_data_items targets
    if res.2 ≠ [] then
      ([Event.resolveTargets targets, Event.errorExternalFiles env.data_dir res.2],
       Except.ok 1)
    else
      let rd := repro_data_items env skipGit fuel res.1
      match rd.2 with
      | Except.error e => (Event.resolveTargets targets :: rd.1, Except.error e)
      | Except.ok true =>
        let c := commit_if_needed ("DVC repro: " ++ String.intercalate " " targets)
        (Event.resolveTargets targets :: (rd.1 ++ c.1), Except.ok c.2)
      | Except.ok false => (Event.resolveTargets targets :: rd.1, Except.ok 1)

/-- CmdRepro.run: acquire the interprocess lock with a 5 unit timeout,
returning 1 with a busy message on failure before any other work; once
acquired, run the body and release the lock on every exit path, success and
exception alike. -/
def CmdRepro_run (env : Env) (targets : List String) (skipGit : Bool) (fuel : Nat) :
    List Event × Except RunErr Nat :=
  if env.lock_acquire = false then
    ([Event.acquireLock 5 false, Event.logBusy], Except.ok 1)
  else
    let body := run_body env targets skipGit fuel
    (Event.acquireLock 5 true :: (body.1 ++ [Event.releaseLock]), body.2)

/-- The value of the shared code dependency list of the command object
after a trace: every setCode event assigns, so the list is whatever the
last setCode event carried (or the initial value when none occurred). -/
def final_code (init : List String) : List Event → List String
  | [] => init
  | Event.setCode c :: es => final_code c es
  | _ :: es => final_code init es

/-- Predicate for commit events. -/
def isCommit : Event → Bool
  | Event.commit _ => true
  | _ => false

/-- Predicate for lock release events. -/
def isRelease : Event → Bool
  | Event.releaseLock => true
  | _ => false

/-- Predicate for change detector calls. -/
def isCheck : Event → Bool
  | Event.checkChanged _ _ => true
  | _ => false

/-- Predicate for the uncommitted-changes warning. -/
def isWarn : Event → Bool
  | Event.warnUncommitted => true
  | _ => false

/-- Predicate for per-target reproduction error logs. -/
def isReproErrLog : Event → Bool
  | Event.logReproError _ _ => true
  | _ => false

/-- Events that may appear in a repro_data_items trace: everything except
the driver bracket events (lock handling, target resolution, commit). -/
def insideLoop : Event → Bool
  | Event.acquireLock _ _ => false
  | Event.releaseLock => false
  | Event.logBusy => false
  | Event.resolveTargets _ => false
  | Event.errorExternalFiles _ _ => false
  | Event.commit _ => false
  | _ => true

/-! Concrete repository snapshots used by the scenario theorems and the
witnesses. -/

/-- State record used for unmapped state paths in the concrete snapshots. -/
def stDefault : StateRecord :=
  ⟨["t", "u"], [], [], true, "default.st"⟩

/-- Artifact A of the chain snapshot: depends on B. -/
def itemA : DataItem := ⟨"A.out", "A.st"⟩

/-- Artifact B of the chain snapshot: depends on C. -/
def itemB : DataItem := ⟨"B.out", "B.st"⟩

/-- Artifact C of the chain snapshot: a leaf whose code dependency changed. -/
def itemC : DataItem := ⟨"C.out", "C.st"⟩

/-- State record of A. -/
def stA : StateRecord := ⟨["python", "a.py"], ["B.out"], ["a.py"], true, "A.st"⟩

/-- State record of B. -/
def stB : StateRecord := ⟨["python", "b.py"], ["C.out"], ["b.py"], true, "B.st"⟩

/-- State record of C. -/
def stC : StateRecord := ⟨["python", "c.py"], [], ["c.py"], true, "C.st"⟩

/-- A baseline environment with a ready repository, a free lock, no managed
targets, unchanged sources, present files and a succeeding executor. -/
def baseEnv : Env where
  lock_acquire := true
  is_ready_to_go := true
  data_dir := "data"
  to_data_items := fun _ => ([], [])
  load := fun _ => stDefault
  data_item := fun _ => ResolveResult.notInDataDir
  were_files_changed := fun _ _ => false
  file_exists := fun _ => true
  run_command := fun _ => true

/-- The chain snapshot: A depends on B depends on C and only the code
dependency of C changed since last production. -/
def chainEnv : Env :=
  { baseEnv with
    to_data_items := fun _ => ([itemA], [])
    load := fun s =>
      if s == "A.st" then stA else if s == "B.st" then stB
      else if s == "C.st" then stC else stDefault
    data_item := fun p =>
      if p == "B.out" then ResolveResult.ok itemB
      else if p == "C.out" then ResolveResult.ok itemC
      else ResolveResult.notInDataDir
    were_files_changed := fun p _ => p == "C.out" }

/-- The constructed node for A in the chain snapshot. -/
def rcA : ReproChange := ⟨itemA, stA, ["python", "a.py"]⟩

/-- The constructed node for C in the chain snapshot. -/
def rcC : ReproChange := ⟨itemC, stC, ["python", "c.py"]⟩

/-- Events of reproducing C in the chain snapshot. -/
def chainTraceC : List Event :=
  [Event.setCode ["c.py"], Event.checkChanged "C.out" ["c.py"],
   Event.removeFile "C.out", Event.execute ["python", "c.py"]]

/-- Events of reproducing B in the chain snapshot: C is fully regenerated
before the staleness of B is evaluated. -/
def chainTraceB : List Event :=
  Event.setCode ["b.py"] :: chainTraceC ++
    [Event.checkChanged "B.out" ["b.py"], Event.removeFile "B.out",
     Event.execute ["python", "b.py"]]

/-- Events of reproducing A in the chain snapshot: C is regenerated first,
then B, then A. -/
def chainTrace : List Event :=
  Event.setCode ["a.py"] :: chainTraceB ++
    [Event.checkChanged "A.out" ["a.py"], Event.removeFile "A.out",
     Event.execute ["python", "a.py"]]


/-- Target S of the malformed snapshot: its producing command has a single
token. -/
def itemS : DataItem := ⟨"S.out", "S.st"⟩

/-- State record of S: one-token argv, malformed. -/
def stS : StateRecord := ⟨["solo"], [], ["s.py"], true, "S.st"⟩

/-- Snapshot whose only target has a malformed (one token) state record. -/
def envShort : Env :=
  { baseEnv with
    to_data_items := fun _ => ([itemS], [])
    load := fun s => if s == "S.st" then stS else stDefault }

/-- Target N of the non-reproducible snapshot. -/
def itemN : DataItem := ⟨"N.out", "N.st"⟩

/-- State record of N: a leaf artifact with the reproducibility flag off,
whose source nevertheless reports changed. -/
def stN : StateRecord := ⟨["python", "n.py"], [], ["n.py"], false, "N.st"⟩

/-- Snapshot with a non-reproducible target whose source changed. -/
def envNR : Env :=
  { baseEnv with
    to_data_items := fun _ => ([itemN], [])
    load := fun s => if s == "N.st" then stN else stDefault
    were_files_changed := fun _ _ => true }

/-- Target M of the missing-output snapshot. -/
def itemM : DataItem := ⟨"M.out", "M.st"⟩

/-- State record of M: reproducible, no dependencies, changed source. -/
def stM : StateRecord := ⟨["python", "m.py"], [], ["m.py"], true, "M.st"⟩

/-- The constructed node for M. -/
def rcM : ReproChange := ⟨itemM, stM, ["python", "m.py"]⟩

/-- Snapshot where regeneration of M is triggered but its output file does
not exist when os.remove runs. -/
def envMissing : Env :=
  { baseEnv with
    to_data_items := fun _ => ([itemM], [])
    load := fun s => if s == "M.st" then stM else stDefault
    were_files_changed := fun _ _ => true
    file_exists := fun _ => false }

/-- Snapshot whose interprocess lock is already held elsewhere. -/
def envLockBusy : Env :=
  { chainEnv with lock_acquire := false }

/-- Snapshot where both requested targets resolve outside the data
directory. -/
def envExternal : Env :=
  { baseEnv with to_data_items := fun _ => ([], ["x", "y"]) }

/-! Helper lemmas: one-step unfolding of reproduce under known oracle
outcomes, and classification of the events a node or the target loop can
emit. -/

/-- The construction trace is always the single assignment of the shared
code dependency list. -/
lemma ReproChange_mk_fst (env : Env) (item : DataItem) :
    (ReproChange_mk env item).1 =
      [Event.setCode (env.load item.state_relative).code_dependencies] := by
  simp only [ReproChange_mk]
  split
  · rfl
  · split <;> rfl

/-- Unfolding reproduce when construction fails. -/
lemma reproduce_mk_err (env : Env) (force : Bool) (f : Nat) (item : DataItem)
    (ev0 : List Event) (e : RunErr)
    (hmk : ReproChange_mk env item = (ev0, Except.error e)) :
    reproduce env force (f + 1) item = (ev0, Except.error e) := by
  simp only [reproduce, hmk]

/-- Unfolding reproduce on a non-reproducible node. -/
lemma reproduce_not_reproducible (env : Env) (force : Bool) (f : Nat) (item : DataItem)
    (ev0 : List Event) (rc : ReproChange)
    (hmk : ReproChange_mk env item = (ev0, Except.ok rc))
    (hrep : rc.state.is_reproducible = false) :
    reproduce env force (f + 1) item = (ev0, Except.ok false) := by
  simp only [reproduce, hmk, hrep]
  simp

/-- Unfolding reproduce when dependency resolution fails. -/
lemma reproduce_deps_err (env : Env) (force : Bool) (f : Nat) (item : DataItem)
    (ev0 : List Event) (rc : ReproChange) (e : RunErr)
    (hmk : ReproChange_mk env item = (ev0, Except.ok rc))
    (hrep : rc.state.is_reproducible = true)
    (hdeps : get_dependencies env rc.state.input_files = Except.error e) :
    reproduce env force (f + 1) item = (ev0, Except.error e) := by
  simp only [reproduce, hmk, hrep, hdeps]
  simp

/-- Unfolding reproduce when a child raises. -/
lemma reproduce_children_err (env : Env) (force : Bool) (f : Nat) (item : DataItem)
    (ev0 : List Event) (rc : ReproChange) (deps : List DataItem)
    (trc : List Event) (e : RunErr)
    (hmk : ReproChange_mk env item = (ev0, Except.ok rc))
    (hrep : rc.state.is_reproducible = true)
    (hdeps : get_dependencies env rc.state.input_files = Except.ok deps)
    (hch : reproChildren (fun d => reproduce env force f d) deps = (trc, Except.error e)) :
    reproduce env force (f + 1) item = (ev0 ++ trc, Except.error e) := by
  simp only [reproduce, hmk, hrep, hdeps, hch]
  simp

/-- Unfolding reproduce when every child was processed and the node is up
to date: force false, source unchanged and no child regenerated. -/
lemma reproduce_up_to_date (env : Env) (force : Bool) (f : Nat) (item : DataItem)
    (ev0 : List Event) (rc : ReproChange) (deps : List DataItem)
    (trc : List Event) (ic : Bool)
    (hmk : ReproChange_mk env item = (ev0, Except.ok rc))
    (hrep : rc.state.is_reproducible = true)
    (hdeps : get_dependencies env rc.state.input_files = Except.ok deps)
    (hch : reproChildren (fun d => reproduce env force f d) deps = (trc, Except.ok ic))
    (hcond : (!force
        && !(env.were_files_changed item.data_relative rc.state.code_dependencies)
        && !ic) = true) :
    reproduce env force (f + 1) item =
      (ev0 ++ trc ++ [Event.checkChanged item.data_relative rc.state.code_dependencies],
       Except.ok false) := by
  simp only [reproduce, hmk, hrep, hdeps, hch]
  simp [hcond, List.append_assoc]

/-- Unfolding reproduce when every child was processed and the node is
stale: regeneration runs and its outcome is propagated. -/
lemma reproduce_regen (env : Env) (force : Bool) (f : Nat) (item : DataItem)
    (ev0 : List Event) (rc : ReproChange) (deps : List DataItem)
    (trc : List Event) (ic : Bool)
    (hmk : ReproChange_mk env item = (ev0, Except.ok rc))
    (hrep : rc.state.is_reproducible = true)
    (hdeps : get_dependencies env rc.state.input_files = Except.ok deps)
    (hch : reproChildren (fun d => reproduce env force f d) deps = (trc, Except.ok ic))
    (hcond : (!force
        && !(env.were_files_changed item.data_relative rc.state.code_dependencies)
        && !ic) = false) :
    reproduce env force (f + 1) item =
      (ev0 ++ trc ++ [Event.checkChanged item.data_relative rc.state.code_dependencies]
         ++ (reproduce_data_file env rc).1,
       (reproduce_data_file env rc).2) := by
  simp only [reproduce, hmk, hrep, hdeps, hch]
  simp [hcond, List.append_assoc]

/-- Unfolding the dependency loop when the first child raises. -/
lemma reproChildren_cons_err (rep : DataItem → List Event × Except RunErr Bool)
    (d : DataItem) (ds : List DataItem) (tr : List Event) (e : RunErr)
    (h : rep d = (tr, Except.error e)) :
    reproChildren rep (d :: ds) = (tr, Except.error e) := by
  simp only [reproChildren, h]

/-- Unfolding the dependency loop when the first child finishes and a later
child raises. -/
lemma reproChildren_cons_ok_err (rep : DataItem → List Event × Except RunErr Bool)
    (d : DataItem) (ds : List DataItem) (tr tr2 : List Event) (b : Bool) (e : RunErr)
    (h1 : rep d = (tr, Except.ok b))
    (h2 : reproChildren rep ds = (tr2, Except.error e)) :
    reproChildren rep (d :: ds) = (tr ++ tr2, Except.error e) := by
  simp only [reproChildren, h1, h2]

/-- Unfolding the dependency loop when every child finishes: the first
child is processed, the remaining children are still processed whatever its
result, and the changed flags are joined by or. -/
lemma reproChildren_cons_ok_ok (rep : DataItem → List Event × Except RunErr Bool)
    (d : DataItem) (ds : List DataItem) (tr tr2 : List Event) (b b2 : Bool)
    (h1 : rep d = (tr, Except.ok b))
    (h2 : reproChildren rep ds = (tr2, Except.ok b2)) :
    reproChildren rep (d :: ds) = (tr ++ tr2, Except.ok (b || b2)) := by
  simp only [reproChildren, h1, h2]

/-- Regeneration emits only file removal and command execution events. -/
lemma insideLoop_rdf (env : Env) (rc : ReproChange) :
    ∀ e ∈ (reproduce_data_file env rc).1, insideLoop e = true := by
  intro e he
  simp only [reproduce_data_file] at he
  split at he
  · simp only [List.mem_cons, List.not_mem_nil, or_false] at he
    rcases he with rfl | rfl <;> rfl
  · simp at he

/-- Every event of the dependency loop comes from some child. -/
lemma insideLoop_reproChildren (rep : DataItem → List Event × Except RunErr Bool)
    (h : ∀ d, ∀ e ∈ (rep d).1, insideLoop e = true) :
    ∀ ds, ∀ e ∈ (reproChildren rep ds).1, insideLoop e = true := by
  intro ds
  induction ds with
  | nil => intro e he; simp [reproChildren] at he
  | cons d ds ih =>
    intro e he
    rcases hrd : rep d with ⟨tr, r⟩
    have htr : ∀ e ∈ tr, insideLoop e = true := by
      intro e2 he2
      exact h d e2 (by rw [hrd]; exact he2)
    cases r with
    | error err =>
      rw [reproChildren_cons_err rep d ds tr err hrd] at he
      exact htr e he
    | ok b =>
      rcases hch : reproChildren rep ds with ⟨tr2, r2⟩
      have htr2 : ∀ e ∈ tr2, insideLoop e = true := by
        intro e2 he2
        exact ih e2 (by rw [hch]; exact he2)
      cases r2 with
      | error err =>
        rw [reproChildren_cons_ok_err rep d ds tr tr2 b err hrd hch] at he
        rcases List.mem_append.mp he with h4 | h4
        · exact htr e h4
        · exact htr2 e h4
      | ok b2 =>
        rw [reproChildren_cons_ok_ok rep d ds tr tr2 b b2 hrd hch] at he
        rcases List.mem_append.mp he with h4 | h4
        · exact htr e h4
        · exact htr2 e h4

/-- A reproduction node only assigns the code list, queries the change
detector, removes its output and executes its command; it never emits
driver bracket events. -/
lemma insideLoop_reproduce :
    ∀ (f : Nat) (env : Env) (force : Bool) (item : DataItem),
      ∀ e ∈ (reproduce env force f item).1, insideLoop e = true := by
  intro f
  induction f with
  | zero => intro env force item e he; simp [reproduce] at he
  | succ f ih =>
    intro env force item e he
    have hev0 : ∀ e2 ∈ (ReproChange_mk env item).1, insideLoop e2 = true := by
      intro e2 he2
      rw [ReproChange_mk_fst] at he2
      simp only [List.mem_cons, List.not_mem_nil, or_false] at he2
      rw [he2]; rfl
    rcases hmk : ReproChange_mk env item with ⟨ev0, r⟩
    have hev0' : ∀ e2 ∈ ev0, insideLoop e2 = true := by
      intro e2 he2
      exact hev0 e2 (by rw [hmk]; exact he2)
    cases r with
    | error err =>
      rw [reproduce_mk_err env force f item ev0 err hmk] at he
      exact hev0' e he
    | ok rc =>
      cases hrep : rc.state.is_reproducible with
      | false =>
        rw [reproduce_not_reproducible env force f item ev0 rc hmk hrep] at he
        exact hev0' e he
      | true =>
        cases hdeps : get_dependencies env rc.state.input_files with
        | error err =>
          rw [reproduce_deps_err env force f item ev0 rc err hmk hrep hdeps] at he
          exact hev0' e he
        | ok deps =>
          rcases hch : reproChildren (fun d => reproduce env force f d) deps with ⟨trc, r2⟩
          have htrc : ∀ e2 ∈ trc, insideLoop e2 = true := by
            intro e2 he2
            refine insideLoop_reproChildren _ (fun d e3 he3 => ih env force d e3 he3) deps e2 ?_
            rw [hch]; exact he2
          cases r2 with
          | error err =>
            rw [reproduce_children_err env force f item ev0 rc deps trc err hmk hrep hdeps hch] at he
            rcases List.mem_append.mp he with h4 | h4
            · exact hev0' e h4
            · exact htrc e h4
          | ok ic =>
            cases hcond : (!force
                && !(env.were_files_changed item.data_relative rc.state.code_dependencies)
                && !ic) with
            | true =>
              rw [reproduce_up_to_date env force f item ev0 rc deps trc ic hmk hrep hdeps hch hcond] at he
              rcases List.mem_append.mp he with h4 | h4
              · rcases List.mem_append.mp h4 with h5 | h5
                · exact hev0' e h5
                · exact htrc e h5
              · simp only [List.mem_cons, List.not_mem_nil, or_false] at h4
                rw [h4]; rfl
            | false =>
              rw [reproduce_regen env force f item ev0 rc deps trc ic hmk hrep hdeps hch hcond] at he
              rcases List.mem_append.mp he with h4 | h4
              · rcases List.mem_append.mp h4 with h5 | h5
                · rcases List.mem_append.mp h5 with h6 | h6
                  · exact hev0' e h6
                  · exact htrc e h6
                · simp only [List.mem_cons, List.not_mem_nil, or_false] at h5
                  rw [h5]; rfl
              · exact insideLoop_rdf env rc e h4

/-- Unfolding the target loop when the head target reports regenerated. -/
lemma reproItemsLoop_cons_true (env : Env) (fuel : Nat) (changed : Bool)
    (d : DataItem) (ds : List DataItem) (tr : List Event)
    (h : reproduce env false fuel d = (tr, Except.ok true)) :
    reproItemsLoop env fuel changed (d :: ds) =
      (tr ++ [Event.logReproduced d.data_relative] ++ (reproItemsLoop env fuel true ds).1,
       (reproItemsLoop env fuel true ds).2) := by
  simp only [reproItemsLoop, h]

/-- Unfolding the target loop when the head target is up to date. -/
lemma reproItemsLoop_cons_false (env : Env) (fuel : Nat) (changed : Bool)
    (d : DataItem) (ds : List DataItem) (tr : List Event)
    (h : reproduce env false fuel d = (tr, Except.ok false)) :
    reproItemsLoop env fuel changed (d :: ds) =
      (tr ++ [Event.logUpToDate d.data_relative] ++ (reproItemsLoop env fuel changed ds).1,
       (reproItemsLoop env fuel changed ds).2) := by
  simp only [reproItemsLoop, h]

/-- Unfolding the target loop when the head target raises ReproError: the
error is logged, the error flag is set, and no later target is attempted. -/
lemma reproItemsLoop_cons_repro (env : Env) (fuel : Nat) (changed : Bool)
    (d : DataItem) (ds : List DataItem) (tr : List Event) (m : String)
    (h : reproduce env false fuel d = (tr, Except.error (RunErr.repro m))) :
    reproItemsLoop env fuel changed (d :: ds) =
      (tr ++ [Event.logReproError d.data_relative m], LoopRes.finished changed true) := by
  simp only [reproItemsLoop, h]

/-- Unfolding the target loop when the head target raises an exception that
is not a ReproError: the except clause does not catch it, so it escapes the
loop with no per-target log. -/
lemma reproItemsLoop_cons_crash (env : Env) (fuel : Nat) (changed : Bool)
    (d : DataItem) (ds : List DataItem) (tr : List Event) (e : RunErr)
    (h : reproduce env false fuel d = (tr, Except.error e))
    (hne : ∀ m, e ≠ RunErr.repro m) :
    reproItemsLoop env fuel changed (d :: ds) = (tr, LoopRes.crashed e) := by
  cases e with
  | repro m => exact absurd rfl (hne m)
  | osError p => simp only [reproItemsLoop, h]
  | noFuel => simp only [reproItemsLoop, h]

/-- Unfolding repro_data_items when the loop ran to a verdict. -/
lemma repro_data_items_finished (env : Env) (skipGit : Bool) (fuel : Nat)
    (items : List DataItem) (tr : List Event) (changed error : Bool)
    (h : reproItemsLoop env fuel false items = (tr, LoopRes.finished changed error)) :
    repro_data_items env skipGit fuel items =
      (if error && !skipGit then tr ++ [Event.errorsOccurred, Event.warnUncommitted] else tr,
       Except.ok (changed && !error)) := by
  simp only [repro_data_items, h]
  cases hc : (error && !skipGit) <;> simp [hc]

/-- Unfolding repro_data_items when an exception escaped the loop: no
aggregate error message and no warning are emitted. -/
lemma repro_data_items_crashed (env : Env) (skipGit : Bool) (fuel : Nat)
    (items : List DataItem) (tr : List Event) (e : RunErr)
    (h : reproItemsLoop env fuel false items = (tr, LoopRes.crashed e)) :
    repro_data_items env skipGit fuel items = (tr, Except.error e) := by
  simp only [repro_data_items, h]

/-- Unfolding the run when the lock acquisition times out. -/
lemma CmdRepro_run_lock_busy (env : Env) (targets : List String) (skipGit : Bool)
    (fuel : Nat) (h : env.lock_acquire = false) :
    CmdRepro_run env targets skipGit fuel =
      ([Event.acquireLock 5 false, Event.logBusy], Except.ok 1) := by
  simp [CmdRepro_run, h]

/-- Unfolding the run once the lock is acquired: the body runs inside the
try block and the lock release is appended on every exit path. -/
lemma CmdRepro_run_locked (env : Env) (targets : List String) (skipGit : Bool)
    (fuel : Nat) (h : env.lock_acquire = true) :
    CmdRepro_run env targets skipGit fuel =
      (Event.acquireLock 5 true ::
         ((run_body env targets skipGit fuel).1 ++ [Event.releaseLock]),
       (run_body env targets skipGit fuel).2) := by
  simp [CmdRepro_run, h]

/-- Unfolding the body when the repository readiness check fails. -/
lemma run_body_not_ready (env : Env) (targets : List String) (skipGit : Bool)
    (fuel : Nat) (h : (!skipGit && !env.is_ready_to_go) = true) :
    run_body env targets skipGit fuel = ([], Except.ok 1) := by
  simp [run_body, h]

/-- Unfolding the body when some targets are outside the data directory:
the error message carries the full list of offending targets and nothing
else runs. -/
lemma run_body_external (env : Env) (targets : List String) (skipGit : Bool)
    (fuel : Nat) (items : List DataItem) (ext : List String)
    (hready : (!skipGit && !env.is_ready_to_go) = false)
    (hres : env.to_data_items targets = (items, ext))
    (hext : ext ≠ []) :
    run_body env targets skipGit fuel =
      ([Event.resolveTargets targets, Event.errorExternalFiles env.data_dir ext],
       Except.ok 1) := by
  simp [run_body, hready, hres, hext]

/-- Unfolding the body when an exception escapes the target loop. -/
lemma run_body_items_err (env : Env) (targets : List String) (skipGit : Bool)
    (fuel : Nat) (items : List DataItem) (tr : List Event) (e : RunErr)
    (hready : (!skipGit && !env.is_ready_to_go) = false)
    (hres : env.to_data_items targets = (items, []))
    (hrd : repro_data_items env skipGit fuel items = (tr, Except.error e)) :
    run_body env targets skipGit fuel =
      (Event.resolveTargets targets :: tr, Except.error e) := by
  simp [run_body, hready, hres, hrd]

/-- Unfolding the body when some target changed and no error occurred: the
commit is triggered and the run succeeds. -/
lemma run_body_items_true (env : Env) (targets : List String) (skipGit : Bool)
    (fuel : Nat) (items : List DataItem) (tr : List Event)
    (hready : (!skipGit && !env.is_ready_to_go) = false)
    (hres : env.to_data_items targets = (items, []))
    (hrd : repro_data_items env skipGit fuel items = (tr, Except.ok true)) :
    run_body env targets skipGit fuel =
      (Event.resolveTargets targets ::
         (tr ++ [Event.commit ("DVC repro: " ++ String.intercalate " " targets)]),
       Except.ok 0) := by
  simp [run_body, hready, hres, hrd, commit_if_needed]

/-- Unfolding the body when nothing changed or an error was recorded: the
run falls through to exit code 1 with no commit. -/
lemma run_body_items_false (env : Env) (targets : List String) (skipGit : Bool)
    (fuel : Nat) (items : List DataItem) (tr : List Event)
    (hready : (!skipGit && !env.is_ready_to_go) = false)
    (hres : env.to_data_items targets = (items, []))
    (hrd : repro_data_items env skipGit fuel items = (tr, Except.ok false)) :
    run_body env targets skipGit fuel =
      (Event.resolveTargets targets :: tr, Except.ok 1) := by
  simp [run_body, hready, hres, hrd]

/-- Every event of the target loop comes from a node or is a per-target
log line. -/
lemma insideLoop_loop (env : Env) (fuel : Nat) :
    ∀ (items : List DataItem) (changed : Bool),
      ∀ e ∈ (reproItemsLoop env fuel changed items).1, insideLoop e = true := by
  intro items
  induction items with
  | nil => intro changed e he; simp [reproItemsLoop] at he
  | cons d ds ih =>
    intro changed e he
    rcases hr : reproduce env false fuel d with ⟨tr, r⟩
    have htr : ∀ e2 ∈ tr, insideLoop e2 = true := by
      intro e2 he2
      exact insideLoop_reproduce fuel env false d e2 (by rw [hr]; exact he2)
    cases r with
    | ok b =>
      cases b with
      | true =>
        rw [reproItemsLoop_cons_true env fuel changed d ds tr hr] at he
        rcases List.mem_append.mp he with h4 | h4
        · rcases List.mem_append.mp h4 with h5 | h5
          · exact htr e h5
          · simp only [List.mem_cons, List.not_mem_nil, or_false] at h5
            rw [h5]; rfl
        · exact ih true e h4
      | false =>
        rw [reproItemsLoop_cons_false env fuel changed d ds tr hr] at he
        rcases List.mem_append.mp he with h4 | h4
        · rcases List.mem_append.mp h4 with h5 | h5
          · exact htr e h5
          · simp only [List.mem_cons, List.not_mem_nil, or_false] at h5
            rw [h5]; rfl
        · exact ih changed e h4
    | error err =>
      cases err with
      | repro m =>
        rw [reproItemsLoop_cons_repro env fuel changed d ds tr m hr] at he
        rcases List.mem_append.mp he with h4 | h4
        · exact htr e h4
        · simp only [List.mem_cons, List.not_mem_nil, or_false] at h4
          rw [h4]; rfl
      | osError p =>
        rw [reproItemsLoop_cons_crash env fuel changed d ds tr _ hr
          (fun m h => RunErr.noConfusion h)] at he
        exact htr e he
      | noFuel =>
        rw [reproItemsLoop_cons_crash env fuel changed d ds tr _ hr
          (fun m h => RunErr.noConfusion h)] at he
        exact htr e he

/-- Every event of repro_data_items comes from the loop or is the
aggregate error message or the uncommitted-changes warning. -/
lemma insideLoop_rdi (env : Env) (skipGit : Bool) (fuel : Nat) (items : List DataItem) :
    ∀ e ∈ (repro_data_items env skipGit fuel items).1, insideLoop e = true := by
  intro e he
  rcases hlr : reproItemsLoop env fuel false items with ⟨tr, lr⟩
  have htr : ∀ e2 ∈ tr, insideLoop e2 = true := by
    intro e2 he2
    exact insideLoop_loop env fuel items false e2 (by rw [hlr]; exact he2)
  cases lr with
  | crashed err =>
    rw [repro_data_items_crashed env skipGit fuel items tr err hlr] at he
    exact htr e he
  | finished changed error =>
    rw [repro_data_items_finished env skipGit fuel items tr changed error hlr] at he
    by_cases hc : (error && !skipGit) = true
    · rw [if_pos hc] at he
      rcases List.mem_append.mp he with h4 | h4
      · exact htr e h4
      · simp only [List.mem_cons, List.not_mem_nil, or_false] at h4
        rcases h4 with rfl | rfl <;> rfl
    · rw [if_neg hc] at he
      exact htr e he

/-- Loop events are never commits. -/
lemma insideLoop_not_commit (e : Event) (h : insideLoop e = true) : isCommit e = false := by
  cases e <;> simp_all [insideLoop, isCommit]

/-- Loop events are never lock releases. -/
lemma insideLoop_not_release (e : Event) (h : insideLoop e = true) : isRelease e = false := by
  cases e <;> simp_all [insideLoop, isRelease]

/-- The trace of repro_data_items contains no commit event. -/
lemma rdi_no_commit (env : Env) (skipGit : Bool) (fuel : Nat) (items : List DataItem) :
    ((repro_data_items env skipGit fuel items).1.countP isCommit) = 0 := by
  refine List.countP_eq_zero.mpr (fun e he => ?_)
  simp [insideLoop_not_commit e (insideLoop_rdi env skipGit fuel items e he)]

/-- The trace of repro_data_items contains no lock release. -/
lemma rdi_no_release (env : Env) (skipGit : Bool) (fuel : Nat) (items : List DataItem) :
    ((repro_data_items env skipGit fuel items).1.countP isRelease) = 0 := by
  refine List.countP_eq_zero.mpr (fun e he => ?_)
  simp [insideLoop_not_release e (insideLoop_rdi env skipGit fuel items e he)]

/-- The try-block body never releases the lock itself: the release happens
exactly once, in the cleanup of the run. -/
lemma run_body_no_release (env : Env) (targets : List String) (skipGit : Bool) (fuel : Nat) :
    ((run_body env targets skipGit fuel).1.countP isRelease) = 0 := by
  cases hready : (!skipGit && !env.is_ready_to_go) with
  | true => rw [run_body_not_ready env targets skipGit fuel hready]; rfl
  | false =>
    rcases hres : env.to_data_items targets with ⟨items, ext⟩
    by_cases hext : ext = []
    · subst hext
      rcases hrd : repro_data_items env skipGit fuel items with ⟨tr, rd⟩
      have htr : tr.countP isRelease = 0 := by
        have := rdi_no_release env skipGit fuel items
        rw [hrd] at this
        exact this
      cases rd with
      | error e =>
        rw [run_body_items_err env targets skipGit fuel items tr e hready hres hrd]
        simp [List.countP_cons, htr, isRelease]
      | ok b =>
        cases b with
        | true =>
          rw [run_body_items_true env targets skipGit fuel items tr hready hres hrd]
          simp [List.countP_cons, List.countP_append, htr, isRelease]
        | false =>
          rw [run_body_items_false env targets skipGit fuel items tr hready hres hrd]
          simp [List.countP_cons, htr, isRelease]
    · rw [run_body_external env targets skipGit fuel items ext hready hres hext]
      rfl

/-! The claims. -/

/-- C1: for every reproduction node, reproduce(force) triggers regeneration
(delete the output, re-run the producing command, propagate the executor
result) if and only if the is_reproducible flag is true and (force is true,
or the change detector reported the source changed, or some recursively
reproduced child reported it was regenerated); in every other case
reproduce returns false without executing the producing command of the
node, and in particular a node with is_reproducible false returns false
immediately, before its dependencies are even resolved, regardless of force
or detected changes. -/
theorem C1_staleness_decision (env : Env) (force : Bool) (f : Nat) (item : DataItem)
    (ev0 : List Event) (rc : ReproChange)
    (hmk : ReproChange_mk env item = (ev0, Except.ok rc))
    (deps : List DataItem)
    (hdeps : get_dependencies env rc.state.input_files = Except.ok deps)
    (trc : List Event) (ic : Bool)
    (hch : reproChildren (fun d => reproduce env force f d) deps = (trc, Except.ok ic)) :
    (rc.state.is_reproducible = false →
      reproduce env force (f + 1) item = (ev0, Except.ok false))
    ∧ (rc.state.is_reproducible = true →
       (force || env.were_files_changed item.data_relative rc.state.code_dependencies
          || ic) = false →
      reproduce env force (f + 1) item
        = (ev0 ++ trc ++ [Event.checkChanged item.data_relative rc.state.code_dependencies],
           Except.ok false))
    ∧ (rc.state.is_reproducible = true →
       (force || env.were_files_changed item.data_relative rc.state.code_dependencies
          || ic) = true →
      reproduce env force (f + 1) item
        = (ev0 ++ trc ++ [Event.checkChanged item.data_relative rc.state.code_dependencies]
             ++ (reproduce_data_file env rc).1,
           (reproduce_data_file env rc).2)) := by
  refine ⟨?_, ?_, ?_⟩
  · intro h1
    exact reproduce_not_reproducible env force f item ev0 rc hmk h1
  · intro h1 h2
    have hcond : (!force
        && !(env.were_files_changed item.data_relative rc.state.code_dependencies)
        && !ic) = true := by
      cases force <;>
        cases hw : env.were_files_changed item.data_relative rc.state.code_dependencies <;>
        cases ic <;> simp_all
    exact reproduce_up_to_date env force f item ev0 rc deps trc ic hmk h1 hdeps hch hcond
  · intro h1 h2
    have hcond : (!force
        && !(env.were_files_changed item.data_relative rc.state.code_dependencies)
        && !ic) = false := by
      cases force <;>
        cases hw : env.were_files_changed item.data_relative rc.state.code_dependencies <;>
        cases ic <;> simp_all
    exact reproduce_regen env force f item ev0 rc deps trc ic hmk h1 hdeps hch hcond

/-- Witness for C1: in the chain snapshot the node A is reproducible and
its child B reports regenerated, so A is regenerated and the executor
result is propagated. -/
theorem C1_staleness_decision_witness :
    reproduce chainEnv false 3 itemA
      = ([Event.setCode ["a.py"]] ++ chainTraceB
           ++ [Event.checkChanged "A.out" ["a.py"]]
           ++ (reproduce_data_file chainEnv rcA).1,
         (reproduce_data_file chainEnv rcA).2) :=
  (C1_staleness_decision chainEnv false 2 itemA [Event.setCode ["a.py"]] rcA rfl
      [itemB] rfl chainTraceB true rfl).2.2 rfl rfl

/-- C2: for every node with declared input dependencies, reproduce
recursively reproduces every child, in declared order, before the staleness
of the node itself is evaluated; all children are fully processed even
after one child reports it was regenerated (no short circuit on the first
changed child), so along the dependency chain A depends on B depends on C
with the source of C changed, C is regenerated first, then B, then A, each
reporting changed true. -/
theorem C2_dependencies_first :
    (∀ (rep : DataItem → List Event × Except RunErr Bool) (d : DataItem)
       (ds : List DataItem) (tr tr2 : List Event) (b b2 : Bool),
        rep d = (tr, Except.ok b) →
        reproChildren rep ds = (tr2, Except.ok b2) →
        reproChildren rep (d :: ds) = (tr ++ tr2, Except.ok (b || b2)))
    ∧ reproduce chainEnv false 1 itemC = (chainTraceC, Except.ok true)
    ∧ reproduce chainEnv false 2 itemB = (chainTraceB, Except.ok true)
    ∧ reproduce chainEnv false 3 itemA = (chainTrace, Except.ok true) :=
  ⟨fun rep d ds tr tr2 b b2 h1 h2 => reproChildren_cons_ok_ok rep d ds tr tr2 b b2 h1 h2,
   rfl, rfl, rfl⟩

/-- Witness for C2: the child B of A is processed and the tail of the
dependency list is still traversed after B reports regenerated. -/
theorem C2_dependencies_first_witness :
    reproChildren (fun d => reproduce chainEnv false 2 d) [itemB]
      = (chainTraceB ++ [], Except.ok (true || false)) :=
  C2_dependencies_first.1 (fun d => reproduce chainEnv false 2 d) itemB []
    chainTraceB [] true false rfl rfl

/-- C3: for every list of resolved targets, the run of the driver returns
success and triggers exactly one commit if and only if at least one target
reported changed true and no target raised an error; a run in which no
target changed and no error occurred returns failure (exit code 1) with no
commit attempted. The commit collaborator itself is modelled from the
spec. -/
theorem C3_commit_iff (env : Env) (targets : List String) (skipGit : Bool) (fuel : Nat)
    (items : List DataItem) (tr : List Event) (changed error : Bool)
    (hlock : env.lock_acquire = true)
    (hready : (skipGit || env.is_ready_to_go) = true)
    (hres : env.to_data_items targets = (items, []))
    (hloop : reproItemsLoop env fuel false items = (tr, LoopRes.finished changed error)) :
    (((CmdRepro_run env targets skipGit fuel).2 = Except.ok 0
        ∧ ((CmdRepro_run env targets skipGit fuel).1.countP isCommit) = 1)
      ↔ (changed = true ∧ error = false))
    ∧ ((changed = false ∧ error = false) →
        (CmdRepro_run env targets skipGit fuel).2 = Except.ok 1
        ∧ ((CmdRepro_run env targets skipGit fuel).1.countP isCommit) = 0) := by
  have hready2 : (!skipGit && !env.is_ready_to_go) = false := by
    cases skipGit <;> cases h2 : env.is_ready_to_go <;> simp_all
  have hrun := CmdRepro_run_locked env targets skipGit fuel hlock
  have hrdi := repro_data_items_finished env skipGit fuel items tr changed error hloop
  have htr : tr.countP isCommit = 0 := by
    have h0 := rdi_no_commit env skipGit fuel items
    rw [hrdi] at h0
    by_cases hc : (error && !skipGit) = true
    · rw [if_pos hc] at h0
      simp only [List.countP_append] at h0
      omega
    · rw [if_neg hc] at h0
      exact h0
  cases error with
  | true =>
    have hrd : repro_data_items env skipGit fuel items
        = (if true && !skipGit then tr ++ [Event.errorsOccurred, Event.warnUncommitted]
           else tr, Except.ok false) := by
      rw [hrdi]; simp
    have hbody := run_body_items_false env targets skipGit fuel items _ hready2 hres hrd
    rw [hbody] at hrun
    constructor
    · constructor
      · intro h
        rw [hrun] at h
        exact absurd h.1 (by simp)
      · intro h
        exact absurd h.2 (by simp)
    · intro h
      exact absurd h.2 (by simp)
  | false =>
    cases changed with
    | true =>
      have hrd : repro_data_items env skipGit fuel items = (tr, Except.ok true) := by
        rw [hrdi]; simp
      have hbody := run_body_items_true env targets skipGit fuel items tr hready2 hres hrd
      rw [hbody] at hrun
      constructor
      · constructor
        · intro _
          exact ⟨rfl, rfl⟩
        · intro _
          rw [hrun]
          refine ⟨rfl, ?_⟩
          simp [List.countP_cons, List.countP_append, htr, isCommit]
      · intro h
        exact absurd h.1 (by simp)
    | false =>
      have hrd : repro_data_items env skipGit fuel items = (tr, Except.ok false) := by
        rw [hrdi]; simp
      have hbody := run_body_items_false env targets skipGit fuel items tr hready2 hres hrd
      rw [hbody] at hrun
      constructor
      · constructor
        · intro h
          rw [hrun] at h
          exact absurd h.1 (by simp)
        · intro h
          exact absurd h.1 (by simp)
      · intro _
        rw [hrun]
        refine ⟨rfl, ?_⟩
        simp [List.countP_cons, List.countP_append, htr, isCommit]

/-- Witness for C3: in the chain snapshot the single target A changed with
no error, so the run exits 0 and commits exactly once. -/
theorem C3_commit_iff_witness :
    (CmdRepro_run chainEnv ["A.out"] false 3).2 = Except.ok 0
    ∧ ((CmdRepro_run chainEnv ["A.out"] false 3).1.countP isCommit) = 1 :=
  (C3_commit_iff chainEnv ["A.out"] false 3 [itemA]
      (chainTrace ++ [Event.logReproduced "A.out"]) true false rfl rfl rfl rfl).1.mpr
    ⟨rfl, rfl⟩

/-- C4: constructing a reproduction node for an artifact whose state record
has no producing command, or a producing command with fewer than 2 tokens,
always raises a ReproError naming a state-file location; this holds for
every such artifact (including ones with is_reproducible false, since the
check precedes looking at that flag), is never a silent skip, and the error
propagates so that the multi-target run aborts at that point: the failing
target is logged with the error, the error flag is set and no later target
is attempted. -/
theorem C4_malformed_state (env : Env) (item : DataItem)
    (hshort : (env.load item.state_relative).norm_argv.length < 2) :
    ∃ m : String,
      ReproChange_mk env item
          = ([Event.setCode (env.load item.state_relative).code_dependencies],
             Except.error (RunErr.repro m))
      ∧ (m = noArgvMsg item.state_relative
         ∨ m = shortArgvMsg (env.load item.state_relative).file)
      ∧ (∀ (f : Nat) (force : Bool),
          reproduce env force (f + 1) item
            = ([Event.setCode (env.load item.state_relative).code_dependencies],
               Except.error (RunErr.repro m)))
      ∧ (∀ (f : Nat) (changed : Bool) (rest : List DataItem),
          reproItemsLoop env (f + 1) changed (item :: rest)
            = ([Event.setCode (env.load item.state_relative).code_dependencies,
                Event.logReproError item.data_relative m],
               LoopRes.finished changed true)) := by
  by_cases hnil : (env.load item.state_relative).norm_argv = []
  · refine ⟨noArgvMsg item.state_relative, ?_, Or.inl rfl, ?_, ?_⟩
    · simp [ReproChange_mk, hnil]
    · intro f force
      exact reproduce_mk_err env force f item _ _ (by simp [ReproChange_mk, hnil])
    · intro f changed rest
      have h1 := reproduce_mk_err env false f item
        [Event.setCode (env.load item.state_relative).code_dependencies]
        (RunErr.repro (noArgvMsg item.state_relative)) (by simp [ReproChange_mk, hnil])
      rw [reproItemsLoop_cons_repro env (f + 1) changed item rest _ _ h1]
      rfl
  · refine ⟨shortArgvMsg (env.load item.state_relative).file, ?_, Or.inr rfl, ?_, ?_⟩
    · simp [ReproChange_mk, hnil, hshort]
    · intro f force
      exact reproduce_mk_err env force f item _ _ (by simp [ReproChange_mk, hnil, hshort])
    · intro f changed rest
      have h1 := reproduce_mk_err env false f item
        [Event.setCode (env.load item.state_relative).code_dependencies]
        (RunErr.repro (shortArgvMsg (env.load item.state_relative).file))
        (by simp [ReproChange_mk, hnil, hshort])
      rw [reproItemsLoop_cons_repro env (f + 1) changed item rest _ _ h1]
      rfl

/-- Witness for C4: the state record of S carries a one-token producing
command, so constructing its node raises the ReproError naming its state
file, even though S would otherwise be reproducible, and the loop stops
there. -/
theorem C4_malformed_state_witness :
    ((envShort.load itemS.state_relative).norm_argv.length < 2)
    ∧ ∃ m : String,
        ReproChange_mk envShort itemS
            = ([Event.setCode (envShort.load itemS.state_relative).code_dependencies],
               Except.error (RunErr.repro m))
        ∧ (m = noArgvMsg itemS.state_relative
           ∨ m = shortArgvMsg (envShort.load itemS.state_relative).file)
        ∧ (∀ (f : Nat) (force : Bool),
            reproduce envShort force (f + 1) itemS
              = ([Event.setCode (envShort.load itemS.state_relative).code_dependencies],
                 Except.error (RunErr.repro m)))
        ∧ (∀ (f : Nat) (changed : Bool) (rest : List DataItem),
            reproItemsLoop envShort (f + 1) changed (itemS :: rest)
              = ([Event.setCode (envShort.load itemS.state_relative).code_dependencies,
                  Event.logReproError itemS.data_relative m],
                 LoopRes.finished changed true)) :=
  ⟨by decide, C4_malformed_state envShort itemS (by decide)⟩

/-- C5: for every run of the driver, the process-wide lock is acquired with
a 5-unit timeout as the very first action; if acquisition times out, the
run performs no target resolution and no reproduction and returns failure
with only the busy message emitted; and once acquired the lock is released
exactly once, on every exit path of the run (success, early return and
exception alike). -/
theorem C5_lock_discipline (env : Env) (targets : List String) (skipGit : Bool) (fuel : Nat) :
    ((CmdRepro_run env targets skipGit fuel).1.head?
        = some (Event.acquireLock 5 env.lock_acquire))
    ∧ (env.lock_acquire = false →
        CmdRepro_run env targets skipGit fuel
          = ([Event.acquireLock 5 false, Event.logBusy], Except.ok 1))
    ∧ (env.lock_acquire = true →
        ∃ body : List Event,
          (CmdRepro_run env targets skipGit fuel).1
              = Event.acquireLock 5 true :: (body ++ [Event.releaseLock])
          ∧ body.countP isRelease = 0) := by
  refine ⟨?_, ?_, ?_⟩
  · cases hl : env.lock_acquire with
    | false => rw [CmdRepro_run_lock_busy env targets skipGit fuel hl]; rfl
    | true => rw [CmdRepro_run_locked env targets skipGit fuel hl]; rfl
  · intro hl
    exact CmdRepro_run_lock_busy env targets skipGit fuel hl
  · intro hl
    refine ⟨(run_body env targets skipGit fuel).1, ?_, run_body_no_release env targets skipGit fuel⟩
    rw [CmdRepro_run_locked env targets skipGit fuel hl]

/-- Witness for C5: with the lock already held elsewhere, the run stops at
the busy message with exit code 1. -/
theorem C5_lock_discipline_witness :
    CmdRepro_run envLockBusy ["A.out"] false 1
      = ([Event.acquireLock 5 false, Event.logBusy], Except.ok 1) :=
  (C5_lock_discipline envLockBusy ["A.out"] false 1).2.1 rfl

/-- C6: if any requested target path resolves outside the managed data
tree, the run of the driver fails (exit code 1) before constructing any
reproduction node and before any reproduction work: the whole trace is the
lock acquisition, the target resolution, one error message carrying every
offending target (not just the first) and the lock release, and no commit
is attempted. -/
theorem C6_external_targets (env : Env) (targets : List String) (skipGit : Bool)
    (fuel : Nat) (items : List DataItem) (ext : List String)
    (hlock : env.lock_acquire = true)
    (hready : (skipGit || env.is_ready_to_go) = true)
    (hres : env.to_data_items targets = (items, ext))
    (hext : ext ≠ []) :
    CmdRepro_run env targets skipGit fuel
      = ([Event.acquireLock 5 true, Event.resolveTargets targets,
          Event.errorExternalFiles env.data_dir ext, Event.releaseLock],
         Except.ok 1) := by
  have hready2 : (!skipGit && !env.is_ready_to_go) = false := by
    cases skipGit <;> cases h2 : env.is_ready_to_go <;> simp_all
  rw [CmdRepro_run_locked env targets skipGit fuel hlock,
    run_body_external env targets skipGit fuel items ext hready2 hres hext]
  rfl

/-- Witness for C6: both requested targets lie outside the data directory;
the run aborts listing both. -/
theorem C6_external_targets_witness :
    CmdRepro_run envExternal ["x", "y"] false 1
      = ([Event.acquireLock 5 true, Event.resolveTargets ["x", "y"],
          Event.errorExternalFiles "data" ["x", "y"], Event.releaseLock],
         Except.ok 1) :=
  C6_external_targets envExternal ["x", "y"] false 1 [] ["x", "y"] rfl rfl rfl
    (by decide)

/-- C7 counterexample: with the skip-git-actions flag set, a target whose
reproduction raises a ReproError is logged and the run is marked errored,
but no uncommitted-changes warning (and no aggregate error message) is
emitted, contrary to the claim that the driver always warns in that
situation. -/
theorem C7_counterexample :
    ((repro_data_items envShort true 1 [itemS]).1.countP isReproErrLog) = 1
    ∧ ((repro_data_items envShort true 1 [itemS]).1.countP isWarn) = 0
    ∧ (repro_data_items envShort true 1 [itemS]).2 = Except.ok false :=
  ⟨by decide, by decide, rfl⟩

/-- C7 (amended): for every target list, if reproducing some target raises
a ReproError, the driver logs the error against that target, marks the run
as errored, attempts no target after the failing one, and the run returns
failure with no commit; the aggregate error message and the warning that
partial, uncommitted changes may exist are emitted exactly when the
skip-git-actions flag is not set. -/
theorem C7_fail_fast (env : Env) (skipGit : Bool) (fuel : Nat)
    (d : DataItem) (rest : List DataItem) (tr : List Event) (m : String) (changed : Bool)
    (herr : reproduce env false fuel d = (tr, Except.error (RunErr.repro m))) :
    reproItemsLoop env fuel changed (d :: rest)
      = (tr ++ [Event.logReproError d.data_relative m], LoopRes.finished changed true)
    ∧ (∀ (items : List DataItem) (ltr : List Event) (ch : Bool),
        reproItemsLoop env fuel false items = (ltr, LoopRes.finished ch true) →
        repro_data_items env skipGit fuel items
          = (ltr ++ (if skipGit then [] else [Event.errorsOccurred, Event.warnUncommitted]),
             Except.ok false))
    ∧ (∀ (targets : List String) (items : List DataItem) (ltr : List Event) (ch : Bool),
        env.lock_acquire = true → (skipGit || env.is_ready_to_go) = true →
        env.to_data_items targets = (items, []) →
        reproItemsLoop env fuel false items = (ltr, LoopRes.finished ch true) →
        CmdRepro_run env targets skipGit fuel
          = (Event.acquireLock 5 true ::
               Event.resolveTargets targets ::
                 ((ltr ++ (if skipGit then []
                           else [Event.errorsOccurred, Event.warnUncommitted]))
                   ++ [Event.releaseLock]),
             Except.ok 1)) := by
  refine ⟨reproItemsLoop_cons_repro env fuel changed d rest tr m herr, ?_, ?_⟩
  · intro items ltr ch hloop
    rw [repro_data_items_finished env skipGit fuel items ltr ch true hloop]
    cases skipGit <;> simp
  · intro targets items ltr ch hlock hready hres hloop
    have hready2 : (!skipGit && !env.is_ready_to_go) = false := by
      cases skipGit <;> cases h2 : env.is_ready_to_go <;> simp_all
    have hrd : repro_data_items env skipGit fuel items
        = (ltr ++ (if skipGit then [] else [Event.errorsOccurred, Event.warnUncommitted]),
           Except.ok false) := by
      rw [repro_data_items_finished env skipGit fuel items ltr ch true hloop]
      cases skipGit <;> simp
    rw [CmdRepro_run_locked env targets skipGit fuel hlock,
      run_body_items_false env targets skipGit fuel items _ hready2 hres hrd]
    rfl

/-- Witness for C7 (amended): in the default mode (git actions not
skipped), the malformed target S is logged, the loop stops with the error
flag set, and the warning is emitted by repro_data_items. -/
theorem C7_fail_fast_witness :
    reproItemsLoop envShort 1 false [itemS]
      = ([Event.setCode ["s.py"]]
           ++ [Event.logReproError "S.out" (shortArgvMsg "S.st")],
         LoopRes.finished false true) :=
  (C7_fail_fast envShort false 1 itemS [] [Event.setCode ["s.py"]]
      (shortArgvMsg "S.st") false rfl).1

/-- C8 counterexample: an invocation of reproduce on a node with
is_reproducible false calls the change detector zero times, not exactly
once as claimed, even though its source reports changed. -/
theorem C8_counterexample :
    ((reproduce envNR false 1 itemN).1.countP isCheck) = 0
    ∧ (reproduce envNR false 1 itemN).2 = Except.ok false :=
  ⟨by decide, rfl⟩

/-- Regeneration never queries the change detector. -/
lemma rdf_no_check (env : Env) (rc : ReproChange) :
    ((reproduce_data_file env rc).1.countP isCheck) = 0 := by
  unfold reproduce_data_file
  split <;> rfl

/-- C8 (amended): for every invocation of reproduce on a node whose state
record has is_reproducible true and whose dependency processing completes
without error, the change detector (were_files_changed on the artifact path
and its code dependencies) is called exactly once by that invocation, after
all child nodes have been fully processed and never before them. -/
theorem C8_check_once_after_children (env : Env) (force : Bool) (f : Nat)
    (item : DataItem) (ev0 : List Event) (rc : ReproChange)
    (hmk : ReproChange_mk env item = (ev0, Except.ok rc))
    (hrep : rc.state.is_reproducible = true)
    (deps : List DataItem)
    (hdeps : get_dependencies env rc.state.input_files = Except.ok deps)
    (trc : List Event) (ic : Bool)
    (hch : reproChildren (fun d => reproduce env force f d) deps = (trc, Except.ok ic)) :
    ∃ rest : List Event,
      (reproduce env force (f + 1) item).1
          = ev0 ++ trc
              ++ [Event.checkChanged item.data_relative rc.state.code_dependencies]
              ++ rest
      ∧ rest.countP isCheck = 0
      ∧ ev0.countP isCheck = 0 := by
  have hev0 : ev0.countP isCheck = 0 := by
    have h0 := ReproChange_mk_fst env item
    rw [hmk] at h0
    have h1 : ev0 = [Event.setCode (env.load item.state_relative).code_dependencies] := h0
    rw [h1]
    rfl
  cases hcond : (!force
      && !(env.were_files_changed item.data_relative rc.state.code_dependencies)
      && !ic) with
  | true =>
    refine ⟨[], ?_, rfl, hev0⟩
    rw [reproduce_up_to_date env force f item ev0 rc deps trc ic hmk hrep hdeps hch hcond]
    simp
  | false =>
    refine ⟨(reproduce_data_file env rc).1, ?_, rdf_no_check env rc, hev0⟩
    rw [reproduce_regen env force f item ev0 rc deps trc ic hmk hrep hdeps hch hcond]

/-- Witness for C8 (amended): the node C of the chain snapshot has no
children; its invocation queries the detector exactly once. -/
theorem C8_check_once_after_children_witness :
    ∃ rest : List Event,
      (reproduce chainEnv false 1 itemC).1
          = [Event.setCode ["c.py"]] ++ []
              ++ [Event.checkChanged "C.out" ["c.py"]] ++ rest
      ∧ rest.countP isCheck = 0
      ∧ ([Event.setCode ["c.py"]] : List Event).countP isCheck = 0 :=
  C8_check_once_after_children chainEnv false 0 itemC [Event.setCode ["c.py"]] rcC
    rfl rfl [] rfl [] false rfl

/-- C9 counterexample: in the chain snapshot the construction of node A
contributes its code dependency a.py to the shared list (the setCode event
is in the trace), yet after the run the list holds only the code
dependencies of the most recently constructed node C, and a.py is absent:
the list does not accumulate the contributions of every constructed node as
claimed. -/
theorem C9_counterexample :
    Event.setCode ["a.py"] ∈ (reproduce chainEnv false 3 itemA).1
    ∧ final_code [] (reproduce chainEnv false 3 itemA).1 = ["c.py"]
    ∧ "a.py" ∉ final_code [] (reproduce chainEnv false 3 itemA).1 :=
  ⟨by decide, rfl, by decide⟩

/-- C9 (amended): each node construction replaces the shared
process-lifetime code-dependency list of the driver with the code
dependencies of its own state record, discarding whatever previous nodes
contributed: the construction emits exactly one assignment of the list, and
an assignment makes the final value independent of everything accumulated
before it. -/
theorem C9_code_list_replaced (env : Env) (item : DataItem) :
    (ReproChange_mk env item).1
        = [Event.setCode (env.load item.state_relative).code_dependencies]
    ∧ ∀ (init c : List String) (rest : List Event),
        final_code init (Event.setCode c :: rest) = final_code c rest :=
  ⟨ReproChange_mk_fst env item, fun _ _ _ => rfl⟩

/-- C10: whenever regeneration is triggered for a node, the output file of
the artifact is deleted unconditionally before the producing command runs;
if the output file does not exist at that moment, the deletion raises an
operating-system error that is not a ReproError, so it escapes the
per-target except clause of the driver (no per-target error message, no
aggregate error message and no uncommitted-changes warning are emitted)
and propagates out of the run, while the lock is still released by the
cleanup of the run. -/
theorem C10_remove_escapes (env : Env) (rc : ReproChange) :
    (env.file_exists rc.item.data_relative = true →
        reproduce_data_file env rc
          = ([Event.removeFile rc.item.data_relative, Event.execute rc.repro_argv],
             Except.ok (env.run_command rc.repro_argv)))
    ∧ (env.file_exists rc.item.data_relative = false →
        reproduce_data_file env rc
          = ([], Except.error (RunErr.osError rc.item.data_relative)))
    ∧ (∀ (fuel : Nat) (changed : Bool) (d : DataItem) (rest : List DataItem)
         (tr : List Event) (p : String),
        reproduce env false fuel d = (tr, Except.error (RunErr.osError p)) →
        reproItemsLoop env fuel changed (d :: rest)
          = (tr, LoopRes.crashed (RunErr.osError p)))
    ∧ (∀ (skipGit : Bool) (fuel : Nat) (items : List DataItem)
         (tr : List Event) (p : String),
        reproItemsLoop env fuel false items = (tr, LoopRes.crashed (RunErr.osError p)) →
        repro_data_items env skipGit fuel items
          = (tr, Except.error (RunErr.osError p)))
    ∧ (∀ (targets : List String) (skipGit : Bool) (fuel : Nat)
         (items : List DataItem) (tr : List Event) (p : String),
        env.lock_acquire = true → (skipGit || env.is_ready_to_go) = true →
        env.to_data_items targets = (items, []) →
        repro_data_items env skipGit fuel items
            = (tr, Except.error (RunErr.osError p)) →
        CmdRepro_run env targets skipGit fuel
          = (Event.acquireLock 5 true ::
               Event.resolveTargets targets :: (tr ++ [Event.releaseLock]),
             Except.error (RunErr.osError p))) := by
  refine ⟨?_, ?_, ?_, ?_, ?_⟩
  · intro h
    simp [reproduce_data_file, h]
  · intro h
    simp [reproduce_data_file, h]
  · intro fuel changed d rest tr p h
    exact reproItemsLoop_cons_crash env fuel changed d rest tr _ h
      (fun m hm => RunErr.noConfusion hm)
  · intro skipGit fuel items tr p h
    exact repro_data_items_crashed env skipGit fuel items tr _ h
  · intro targets skipGit fuel items tr p hlock hready hres hrd
    have hready2 : (!skipGit && !env.is_ready_to_go) = false := by
      cases skipGit <;> cases h2 : env.is_ready_to_go <;> simp_all
    rw [CmdRepro_run_locked env targets skipGit fuel hlock,
      run_body_items_err env targets skipGit fuel items tr _ hready2 hres hrd]
    rfl

/-- Witness for C10: the output of M does not exist when regeneration is
triggered, so the deletion raises the operating-system error. -/
theorem C10_remove_escapes_witness :
    reproduce_data_file envMissing rcM
      = ([], Except.error (RunErr.osError "M.out")) :=
  (C10_remove_escapes envMissing rcM).2.1 rfl
